import Mathlib

/-!
# IP allow-list middleware (`pkg/middlewares/ipwhitelist/ip_whitelist.go`)

A shallow embedding of `New`, `GetTracingInformation`, `ServeHTTP` and `reject`.

Go values with effects are embedded as the ordered list of calls the middleware
itself makes on its collaborators (logger, strategy, checker, tracer, response
writer, next handler).  The return values those calls hand back, where the code
branches on them (`IsAuthorized`, `Write`, `NewChecker`, `Get`), are functions of
the collaborator.  Package `ip` and `dynamic.IPStrategy` lie outside the two
source files; the middleware takes them as the parameter `Collab`.
-/

namespace ipallowlist

/-! ## Go values -/

/-- A Go `error` value: `errors.New(text)`, or `fmt.Errorf` with a `%w` verb, which keeps
the wrapped error next to the formatted text. -/
inductive GoError where
  | new (text : String)
  | wrap (text : String) (inner : GoError)
deriving DecidableEq, Repr

/-- The method `Error()`. -/
def GoError.Error : GoError → String
  | .new text => text
  | .wrap text _ => text

/-- The function `errors.Unwrap`. -/
def GoError.Unwrap : GoError → Option GoError
  | .new _ => none
  | .wrap _ inner => some inner

/-- The verb `%s` of package fmt applied to a `[]string`: the elements between brackets,
separated by one blank. -/
def fmtStrings (xs : List String) : String :=
  "[" ++ " ".intercalate xs ++ "]"

/-- The fields of `http.Request` that IP derivation reads. -/
structure Request where
  RemoteAddr : String
  Header : List (String × List String)
deriving DecidableEq, Repr

/-- An `http.ResponseWriter` as the middleware sees it: an identity, and the error
(or nil) that its `Write` hands back for a given body. -/
structure ResponseWriter where
  ident : Nat
  Write : String → Option GoError

/-- The three methods of the interface `http.ResponseWriter`, with their arguments. -/
inductive RWCall where
  | Header
  | Write (body : String)
  | WriteHeader (statusCode : Nat)
deriving DecidableEq, Repr

/-- The interface `ip.Strategy`: its one method. -/
structure Strategy where
  GetIP : Request → String

/-- The constant `typeName`. -/
def typeName : String := "IPAllowLister"

/-- The constant `http.StatusForbidden`. -/
def StatusForbidden : Nat := 403

/-- The function `http.StatusText` of the Go standard library. -/
def StatusText (code : Nat) : String :=
  match code with
  | 100 => "Continue"
  | 101 => "Switching Protocols"
  | 102 => "Processing"
  | 103 => "Early Hints"
  | 200 => "OK"
  | 201 => "Created"
  | 202 => "Accepted"
  | 203 => "Non-Authoritative Information"
  | 204 => "No Content"
  | 205 => "Reset Content"
  | 206 => "Partial Content"
  | 207 => "Multi-Status"
  | 208 => "Already Reported"
  | 226 => "IM Used"
  | 300 => "Multiple Choices"
  | 301 => "Moved Permanently"
  | 302 => "Found"
  | 303 => "See Other"
  | 304 => "Not Modified"
  | 305 => "Use Proxy"
  | 307 => "Temporary Redirect"
  | 308 => "Permanent Redirect"
  | 400 => "Bad Request"
  | 401 => "Unauthorized"
  | 402 => "Payment Required"
  | 403 => "Forbidden"
  | 404 => "Not Found"
  | 405 => "Method Not Allowed"
  | 406 => "Not Acceptable"
  | 407 => "Proxy Authentication Required"
  | 408 => "Request Timeout"
  | 409 => "Conflict"
  | 410 => "Gone"
  | 411 => "Length Required"
  | 412 => "Precondition Failed"
  | 413 => "Request Entity Too Large"
  | 414 => "Request URI Too Long"
  | 415 => "Unsupported Media Type"
  | 416 => "Requested Range Not Satisfiable"
  | 417 => "Expectation Failed"
  | 418 => "I\x27m a teapot"
  | 421 => "Misdirected Request"
  | 422 => "Unprocessable Entity"
  | 423 => "Locked"
  | 424 => "Failed Dependency"
  | 425 => "Too Early"
  | 426 => "Upgrade Required"
  | 428 => "Precondition Required"
  | 429 => "Too Many Requests"
  | 431 => "Request Header Fields Too Large"
  | 451 => "Unavailable For Legal Reasons"
  | 500 => "Internal Server Error"
  | 501 => "Not Implemented"
  | 502 => "Bad Gateway"
  | 503 => "Service Unavailable"
  | 504 => "Gateway Timeout"
  | 505 => "HTTP Version Not Supported"
  | 506 => "Variant Also Negotiates"
  | 507 => "Insufficient Storage"
  | 508 => "Loop Detected"
  | 510 => "Not Extended"
  | 511 => "Network Authentication Required"
  | _ => ""

/-- Modelled from the spec: the constant `tracing.SpanKindNoneEnum`, declared in package
tracing outside the source files; span kinds are strings and this one is "none". -/
def SpanKindNoneEnum : String := "none"

/-! ## Collaborators outside the source files -/

/-- Modelled from the spec: the type `dynamic.IPAllowList`, declared outside the source
files (section 6: `sourceRange` and `ipStrategy`).  A nil and a zero-length
`SourceRange` are both the empty list. -/
structure IPAllowList (StratCfg : Type) where
  SourceRange : List String
  IPStrategy : StratCfg

/-- The functions of package `ip` and of `dynamic.IPStrategy` that the middleware calls.
Their code is outside the source files, so the middleware is embedded over any of them.
A Go pair `(value, error)` is read as `Except`: the value is used only when the error
is nil. -/
structure Collab (Chk StratCfg : Type) where
  NewChecker : List String → Except GoError Chk
  IsAuthorized : Chk → String → Option GoError
  Get : StratCfg → Except GoError Strategy

/-! ## Calls made by the middleware -/

/-- The logger fields that `middlewares.GetLoggerCtx(ctx, name, typeName)` attaches. -/
structure LoggerCtx where
  middlewareName : String
  middlewareType : String
deriving DecidableEq, Repr

/-- The function `middlewares.GetLoggerCtx`, reduced to the fields it adds. -/
def GetLoggerCtx (name typ : String) : LoggerCtx :=
  { middlewareName := name, middlewareType := typ }

/-- The log and trace messages of the file, kept as format and arguments. -/
inductive LogMsg where
  | creating
  | settingUp (sourceRange : List String)
  | rejecting (req : Request) (err : GoError)
  | accept (ip : String) (req : Request)
deriving DecidableEq, Repr

/-- One call made by the middleware on a collaborator, in program order. -/
inductive Event (H : Type) where
  | Debug (ctx : LoggerCtx) (msg : LogMsg)
  | Error (ctx : LoggerCtx) (err : GoError)
  | GetIP (req : Request)
  | IsAuthorized (addr : String)
  | SetErrorWithEvent (req : Request) (msg : LogMsg)
  | rw (w : ResponseWriter) (call : RWCall)
  | next (h : H) (w : ResponseWriter) (req : Request)

/-- The struct `ipAllowLister`. -/
structure ipAllowLister (H Chk : Type) where
  next : H
  allowLister : Chk
  strategy : Strategy
  name : String

/-! ## The code -/

/-- The function `New`: the debug lines it logs and its two results (handler, error). -/
def New {H Chk StratCfg : Type} (c : Collab Chk StratCfg) (next : H)
    (config : IPAllowList StratCfg) (name : String) :
    List (Event H) × Option (ipAllowLister H Chk) × Option GoError :=
  let logger := GetLoggerCtx name typeName
  let log1 : List (Event H) := [Event.Debug logger LogMsg.creating]
  if config.SourceRange.length = 0 then
    (log1, none, some (GoError.new "sourceRange is empty, IPAllowLister not created"))
  else
    match c.NewChecker config.SourceRange with
    | .error err =>
      (log1, none, some (GoError.wrap
        ("cannot parse CIDR allowlist " ++ fmtStrings config.SourceRange ++ ": " ++ err.Error)
        err))
    | .ok checker =>
      match c.Get config.IPStrategy with
      | .error err => (log1, none, some err)
      | .ok strategy =>
        (log1 ++ [Event.Debug logger (LogMsg.settingUp config.SourceRange)],
          some { strategy := strategy, allowLister := checker, next := next, name := name },
          none)

/-- The method `GetTracingInformation`. -/
def ipAllowLister.GetTracingInformation {H Chk : Type} (wl : ipAllowLister H Chk) :
    String × String :=
  (wl.name, SpanKindNoneEnum)

/-- The function `reject`. -/
def reject {H : Type} (ctx : LoggerCtx) (rw : ResponseWriter) : List (Event H) :=
  let statusCode := StatusForbidden
  [Event.rw rw (RWCall.WriteHeader statusCode),
   Event.rw rw (RWCall.Write (StatusText statusCode))] ++
  match rw.Write (StatusText statusCode) with
  | some err => [Event.Error ctx err]
  | none => []

/-- The method `ServeHTTP`. -/
def ipAllowLister.ServeHTTP {H Chk StratCfg : Type} (c : Collab Chk StratCfg)
    (wl : ipAllowLister H Chk) (rw : ResponseWriter) (req : Request) : List (Event H) :=
  let ctx := GetLoggerCtx wl.name typeName
  let addr := wl.strategy.GetIP req
  match c.IsAuthorized wl.allowLister addr with
  | some err =>
    let logMessage := LogMsg.rejecting req err
    [Event.GetIP req, Event.IsAuthorized addr,
     Event.Debug ctx logMessage,
     Event.SetErrorWithEvent req logMessage] ++
    reject ctx rw
  | none =>
    [Event.GetIP req, Event.IsAuthorized addr,
     Event.GetIP req, Event.Debug ctx (LogMsg.accept (wl.strategy.GetIP req) req),
     Event.next wl.next rw req]

/-! ## Observations on a list of calls -/

/-- The calls made on the next handler: handler, response writer and request of each. -/
def nextCalls {H : Type} (t : List (Event H)) : List (H × ResponseWriter × Request) :=
  t.filterMap fun e => match e with
    | Event.next h w req => some (h, w, req)
    | _ => none

/-- The calls made on response writers: the writer and the method of each. -/
def rwCalls {H : Type} (t : List (Event H)) : List (ResponseWriter × RWCall) :=
  t.filterMap fun e => match e with
    | Event.rw w call => some (w, call)
    | _ => none

/-- The response as written: the response-writer methods called, in order. -/
def response {H : Type} (t : List (Event H)) : List RWCall :=
  (rwCalls t).map Prod.snd

/-- The requests on which the strategy was asked for an IP. -/
def getIPCalls {H : Type} (t : List (Event H)) : List Request :=
  t.filterMap fun e => match e with
    | Event.GetIP req => some req
    | _ => none

/-- The addresses on which the checker was asked. -/
def isAuthorizedCalls {H : Type} (t : List (Event H)) : List String :=
  t.filterMap fun e => match e with
    | Event.IsAuthorized addr => some addr
    | _ => none

/-- The tracing error annotations made. -/
def setErrorCalls {H : Type} (t : List (Event H)) : List (Request × LogMsg) :=
  t.filterMap fun e => match e with
    | Event.SetErrorWithEvent req msg => some (req, msg)
    | _ => none

/-- The errors handed to the logger at level error. -/
def errorLogs {H : Type} (t : List (Event H)) : List GoError :=
  t.filterMap fun e => match e with
    | Event.Error _ err => some err
    | _ => none

/-! ## Package ip, from the specification -/

namespace ip

/-- Modelled from the spec: a parsed IP address, which package ip (outside the source
files) checks.  `width` is 32 (IPv4) or 128 (IPv6), `val` the address as a number. -/
structure IPAddr where
  width : Nat
  val : Nat
deriving DecidableEq, Repr

/-- Modelled from the spec: a parsed CIDR block of package ip, the (network, mask) pair of
section 4.1: base address and number of leading mask bits. -/
structure IPNet where
  width : Nat
  base : Nat
  ones : Nat
deriving DecidableEq, Repr

/-- Modelled from the spec: standard CIDR containment, which package ip decides: same
address family, and the address agrees with the base on the leading `ones` bits. -/
def IPNet.Contains (n : IPNet) (a : IPAddr) : Bool :=
  n.width == a.width &&
    a.val / 2 ^ (n.width - n.ones) == n.base / 2 ^ (n.width - n.ones)

/-- Modelled from the spec: the textual syntax of addresses and of CIDR blocks that package
ip relies on (Go package net); the checker is stated over any such grammar. -/
structure AddrGrammar where
  parseIP : String → Option IPAddr
  parseCIDR : String → Option IPNet

/-- Modelled from the spec: one entry of the range list as package ip reads it
(section 4.1): a CIDR block, or a bare IP treated as a /32 or /128 block. -/
def parseRange (sx : AddrGrammar) (s : String) : Option IPNet :=
  match sx.parseCIDR s with
  | some n => some n
  | none =>
    match sx.parseIP s with
    | some a => some { width := a.width, base := a.val, ones := a.width }
    | none => none

/-- Modelled from the spec: the parsing loop of `ip.NewChecker` (section 4.1): any
unparsable entry fails the whole construction, order is preserved. -/
def parseRanges (sx : AddrGrammar) : List String → Except GoError (List IPNet)
  | [] => .ok []
  | r :: rs =>
    match parseRange sx r with
    | none => .error (GoError.new ("parsing CIDR trusted IPs " ++ r))
    | some n =>
      match parseRanges sx rs with
      | .error e => .error e
      | .ok ns => .ok (n :: ns)

/-- Modelled from the spec: the type `ip.Checker` (section 3): the parsed ranges. -/
structure Checker where
  authorized : List IPNet
deriving DecidableEq, Repr

/-- Modelled from the spec: the function `ip.NewChecker` (sections 4.1 and 8): fails on an
empty list and on any unparsable entry. -/
def NewChecker (sx : AddrGrammar) (ranges : List String) : Except GoError Checker :=
  if ranges.length = 0 then .error (GoError.new "no trusted IPs provided")
  else
    match parseRanges sx ranges with
    | .error e => .error e
    | .ok ns => .ok { authorized := ns }

/-- Modelled from the spec: the method `ip.Checker.IsAuthorized` (section 4.1): an
unparsable candidate fails closed, otherwise any one containing range authorizes. -/
def Checker.IsAuthorized (sx : AddrGrammar) (ck : Checker) (addr : String) : Option GoError :=
  match sx.parseIP addr with
  | none => some (GoError.new "invalid IP")
  | some a =>
    if ck.authorized.any (fun n => n.Contains a) then none
    else some (GoError.new "IP not in allow-list")

/-- Modelled from the spec: removal of the port from a transport peer address
"host:port" (section 4.2, RemotePeer); an address without a colon is kept whole. -/
def stripPort (s : String) : String :=
  match s.toList.reverse.dropWhile (fun ch => ch != ':') with
  | [] => s
  | _ :: hostRev => String.mk hostRev.reverse

/-- Modelled from the spec: the RemotePeer variant of `ip.Strategy` (section 4.2): the
transport-layer peer address, stripped of port, whatever the headers. -/
def RemoteAddrStrategy : Strategy :=
  { GetIP := fun req => stripPort req.RemoteAddr }

/-- Decimal value of a run of digits read left to right, `none` on another character. -/
def parseDecAux (acc : Nat) : List Char → Option Nat
  | [] => some acc
  | ch :: cs =>
    if ch.isDigit then parseDecAux (acc * 10 + (ch.toNat - 48)) cs else none

/-- Decimal value of a non-empty run of digits. -/
def parseDec : List Char → Option Nat
  | [] => none
  | ch :: cs => parseDecAux 0 (ch :: cs)

/-- The pieces of a character list between occurrences of `sep`. -/
def splitAtChar (sep : Char) : List Char → List (List Char)
  | [] => [[]]
  | ch :: cs =>
    if ch = sep then [] :: splitAtChar sep cs
    else
      match splitAtChar sep cs with
      | [] => [[ch]]
      | p :: ps => (ch :: p) :: ps

/-- Dotted-quad IPv4 text: four decimal fields of at most 255. -/
def parseIPv4Chars (cs : List Char) : Option IPAddr :=
  match (splitAtChar '.' cs).map parseDec with
  | [some a, some b, some c, some d] =>
    if a ≤ 255 ∧ b ≤ 255 ∧ c ≤ 255 ∧ d ≤ 255 then
      some { width := 32, val := ((a * 256 + b) * 256 + c) * 256 + d }
    else none
  | _ => none

/-- IPv4 CIDR text: a dotted quad, a slash, a mask length of at most 32. -/
def parseCIDRv4Chars (cs : List Char) : Option IPNet :=
  match splitAtChar '/' cs with
  | [addr, len] =>
    match parseIPv4Chars addr, parseDec len with
    | some a, some k => if k ≤ 32 then some { width := 32, base := a.val, ones := k } else none
    | _, _ => none
  | _ => none

/-- Modelled from the spec: the IPv4 part of the address syntax of package net, on which
the end-to-end scenarios of section 8 are evaluated. -/
def ipv4Grammar : AddrGrammar :=
  { parseIP := fun s => parseIPv4Chars s.toList
    parseCIDR := fun s => parseCIDRv4Chars s.toList }

end ip

/-- Package ip as modelled from the specification, with the strategy selection `get` of
`dynamic.IPStrategy` left open. -/
def specCollab {StratCfg : Type} (sx : ip.AddrGrammar) (get : StratCfg → Except GoError Strategy) :
    Collab ip.Checker StratCfg :=
  { NewChecker := ip.NewChecker sx
    IsAuthorized := ip.Checker.IsAuthorized sx
    Get := get }


/-! ## Inputs of the end-to-end scenarios -/

/-- Modelled from the spec: `dynamic.IPStrategy.Get` on an unset strategy configuration,
which selects RemotePeer (section 4.2: the default/unset strategy). -/
def getUnset : Unit → Except GoError Strategy :=
  fun _ => .ok ip.RemoteAddrStrategy

/-- The collaborators of the scenarios of section 8: IPv4 syntax, strategy unset. -/
def scenarioCollab : Collab ip.Checker Unit :=
  specCollab ip.ipv4Grammar getUnset

/-- The configuration of scenarios A and B: allow-list `["192.168.0.0/16"]`. -/
def scenarioConfig : IPAllowList Unit :=
  { SourceRange := ["192.168.0.0/16"], IPStrategy := () }

/-- The middleware of scenarios A and B, over next handlers named by a number. -/
def scenarioWL : ipAllowLister Nat ip.Checker :=
  { next := 7
    allowLister := { authorized := [{ width := 32, base := 3232235520, ones := 16 }] }
    strategy := ip.RemoteAddrStrategy
    name := "allow-lan" }

/-- A response writer whose `Write` succeeds. -/
def rwOk : ResponseWriter :=
  { ident := 1, Write := fun _ => none }

/-- A response writer whose `Write` fails. -/
def rwBroken : ResponseWriter :=
  { ident := 2, Write := fun _ => some (GoError.new "broken pipe") }

/-- The request of scenario A: peer `192.168.1.5`. -/
def reqA : Request :=
  { RemoteAddr := "192.168.1.5:51000", Header := [] }

/-- The request of scenario B: peer `10.0.0.1`, with a forwarded-for header naming an
address of the allowed range. -/
def reqB : Request :=
  { RemoteAddr := "10.0.0.1:51000", Header := [("X-Forwarded-For", ["192.168.1.5"])] }

/-- The request of scenario D: the peer address is the empty string. -/
def reqD : Request :=
  { RemoteAddr := "", Header := [] }

/-! ## Theorems -/

/-- The calls of `reject`: status first, then the body, then the error log if `Write`
failed. -/
theorem reject_eq {H : Type} (ctx : LoggerCtx) (rw : ResponseWriter) :
    (reject ctx rw : List (Event H)) =
      [Event.rw rw (RWCall.WriteHeader 403), Event.rw rw (RWCall.Write "Forbidden")] ++
        (match rw.Write "Forbidden" with
         | some err => [Event.Error ctx err]
         | none => []) := by
  rfl

/-- The calls of `ServeHTTP` when the checker refuses the derived IP. -/
theorem ServeHTTP_refused {H Chk StratCfg : Type} (c : Collab Chk StratCfg)
    (wl : ipAllowLister H Chk) (rw : ResponseWriter) (req : Request) (err : GoError)
    (h : c.IsAuthorized wl.allowLister (wl.strategy.GetIP req) = some err) :
    wl.ServeHTTP c rw req =
      [Event.GetIP req, Event.IsAuthorized (wl.strategy.GetIP req),
       Event.Debug (GetLoggerCtx wl.name typeName) (LogMsg.rejecting req err),
       Event.SetErrorWithEvent req (LogMsg.rejecting req err)] ++
      reject (GetLoggerCtx wl.name typeName) rw := by
  simp only [ipAllowLister.ServeHTTP, h]

/-- The calls of `ServeHTTP` when the checker accepts the derived IP. -/
theorem ServeHTTP_accepted {H Chk StratCfg : Type} (c : Collab Chk StratCfg)
    (wl : ipAllowLister H Chk) (rw : ResponseWriter) (req : Request)
    (h : c.IsAuthorized wl.allowLister (wl.strategy.GetIP req) = none) :
    wl.ServeHTTP c rw req =
      [Event.GetIP req, Event.IsAuthorized (wl.strategy.GetIP req),
       Event.GetIP req,
       Event.Debug (GetLoggerCtx wl.name typeName) (LogMsg.accept (wl.strategy.GetIP req) req),
       Event.next wl.next rw req] := by
  simp only [ipAllowLister.ServeHTTP, h]

/-- The response-writer calls of `reject`, whatever `Write` returns. -/
theorem rwCalls_reject {H : Type} (ctx : LoggerCtx) (rw : ResponseWriter) :
    rwCalls (reject ctx rw : List (Event H)) =
      [(rw, RWCall.WriteHeader 403), (rw, RWCall.Write "Forbidden")] := by
  rw [reject_eq]
  cases rw.Write "Forbidden" <;> rfl

/-- The function `reject` never calls a next handler. -/
theorem nextCalls_reject {H : Type} (ctx : LoggerCtx) (rw : ResponseWriter) :
    nextCalls (reject ctx rw : List (Event H)) = [] := by
  rw [reject_eq]
  cases rw.Write "Forbidden" <;> rfl

/-- The response-writer calls of `ServeHTTP` on a refused request. -/
theorem rwCalls_refused {H Chk StratCfg : Type} (c : Collab Chk StratCfg)
    (wl : ipAllowLister H Chk) (rw : ResponseWriter) (req : Request) (err : GoError)
    (h : c.IsAuthorized wl.allowLister (wl.strategy.GetIP req) = some err) :
    rwCalls (wl.ServeHTTP c rw req) =
      [(rw, RWCall.WriteHeader 403), (rw, RWCall.Write "Forbidden")] := by
  rw [ServeHTTP_refused c wl rw req err h, rwCalls, List.filterMap_append]
  exact rwCalls_reject (GetLoggerCtx wl.name typeName) rw

/-- The next-handler calls of `ServeHTTP` on a refused request: none. -/
theorem nextCalls_refused {H Chk StratCfg : Type} (c : Collab Chk StratCfg)
    (wl : ipAllowLister H Chk) (rw : ResponseWriter) (req : Request) (err : GoError)
    (h : c.IsAuthorized wl.allowLister (wl.strategy.GetIP req) = some err) :
    nextCalls (wl.ServeHTTP c rw req) = [] := by
  rw [ServeHTTP_refused c wl rw req err h, nextCalls, List.filterMap_append]
  exact nextCalls_reject (GetLoggerCtx wl.name typeName) rw

/-- The next-handler calls of `ServeHTTP` on an accepted request: one, with the writer
and the request received. -/
theorem nextCalls_accepted {H Chk StratCfg : Type} (c : Collab Chk StratCfg)
    (wl : ipAllowLister H Chk) (rw : ResponseWriter) (req : Request)
    (h : c.IsAuthorized wl.allowLister (wl.strategy.GetIP req) = none) :
    nextCalls (wl.ServeHTTP c rw req) = [(wl.next, rw, req)] := by
  rw [ServeHTTP_accepted c wl rw req h]
  rfl

/-- The response-writer calls of `ServeHTTP` on an accepted request: none. -/
theorem rwCalls_accepted {H Chk StratCfg : Type} (c : Collab Chk StratCfg)
    (wl : ipAllowLister H Chk) (rw : ResponseWriter) (req : Request)
    (h : c.IsAuthorized wl.allowLister (wl.strategy.GetIP req) = none) :
    rwCalls (wl.ServeHTTP c rw req) = [] := by
  rw [ServeHTTP_accepted c wl rw req h]
  rfl

/-- C1: when `IsAuthorized` returns an error on the IP derived by the strategy,
`ServeHTTP` makes no call on the next handler, and the calls it makes on the response
writer are exactly `WriteHeader(403)` followed by `Write("Forbidden")`, where "Forbidden"
is the status text of 403. -/
theorem C1_reject_403_forbidden {H Chk StratCfg : Type} (c : Collab Chk StratCfg)
    (wl : ipAllowLister H Chk) (rw : ResponseWriter) (req : Request) (err : GoError)
    (h : c.IsAuthorized wl.allowLister (wl.strategy.GetIP req) = some err) :
    nextCalls (wl.ServeHTTP c rw req) = [] ∧
    rwCalls (wl.ServeHTTP c rw req) =
      [(rw, RWCall.WriteHeader 403), (rw, RWCall.Write "Forbidden")] ∧
    StatusText 403 = "Forbidden" :=
  ⟨nextCalls_refused c wl rw req err h, rwCalls_refused c wl rw req err h, rfl⟩

/-- C1 at scenario B: allow-list `["192.168.0.0/16"]`, RemotePeer, peer `10.0.0.1`. -/
theorem C1_reject_403_forbidden_witness :
    scenarioCollab.IsAuthorized scenarioWL.allowLister (scenarioWL.strategy.GetIP reqB) =
      some (GoError.new "IP not in allow-list") ∧
    nextCalls (scenarioWL.ServeHTTP scenarioCollab rwOk reqB) = [] ∧
    rwCalls (scenarioWL.ServeHTTP scenarioCollab rwOk reqB) =
      [(rwOk, RWCall.WriteHeader 403), (rwOk, RWCall.Write "Forbidden")] ∧
    StatusText 403 = "Forbidden" :=
  ⟨by decide, C1_reject_403_forbidden scenarioCollab scenarioWL rwOk reqB
    (GoError.new "IP not in allow-list") (by decide)⟩

/-- C2: when `IsAuthorized` returns no error on the IP derived by the strategy, `ServeHTTP`
calls the next handler exactly once, with the response writer and the request it
received, and calls no method of the response writer itself (no `Header`, no
`WriteHeader`, no `Write`). -/
theorem C2_allow_forwards_unmodified {H Chk StratCfg : Type} (c : Collab Chk StratCfg)
    (wl : ipAllowLister H Chk) (rw : ResponseWriter) (req : Request)
    (h : c.IsAuthorized wl.allowLister (wl.strategy.GetIP req) = none) :
    nextCalls (wl.ServeHTTP c rw req) = [(wl.next, rw, req)] ∧
    rwCalls (wl.ServeHTTP c rw req) = [] :=
  ⟨nextCalls_accepted c wl rw req h, rwCalls_accepted c wl rw req h⟩

/-- C2 at scenario A: allow-list `["192.168.0.0/16"]`, RemotePeer, peer `192.168.1.5`. -/
theorem C2_allow_forwards_unmodified_witness :
    scenarioCollab.IsAuthorized scenarioWL.allowLister (scenarioWL.strategy.GetIP reqA) = none ∧
    nextCalls (scenarioWL.ServeHTTP scenarioCollab rwOk reqA) = [(7, rwOk, reqA)] ∧
    rwCalls (scenarioWL.ServeHTTP scenarioCollab rwOk reqA) = [] :=
  ⟨by decide, C2_allow_forwards_unmodified scenarioCollab scenarioWL rwOk reqA (by decide)⟩

/-- C3: `New` on a configuration whose `SourceRange` is empty returns a nil handler and
the error "sourceRange is empty, IPAllowLister not created", for every next handler, name
and strategy configuration (and whatever package ip would do). -/
theorem C3_new_empty_source_range {H Chk StratCfg : Type} (c : Collab Chk StratCfg)
    (next : H) (config : IPAllowList StratCfg) (name : String)
    (h : config.SourceRange = []) :
    (New c next config name).2.1 = none ∧
    (New c next config name).2.2 =
      some (GoError.new "sourceRange is empty, IPAllowLister not created") := by
  simp [New, h]

/-- C3 at scenario C: construction with `sourceRange: []`. -/
theorem C3_new_empty_source_range_witness :
    (New scenarioCollab (7 : Nat) { SourceRange := [], IPStrategy := () } "allow-lan").2.1 = none ∧
    (New scenarioCollab (7 : Nat) { SourceRange := [], IPStrategy := () } "allow-lan").2.2 =
      some (GoError.new "sourceRange is empty, IPAllowLister not created") :=
  C3_new_empty_source_range scenarioCollab 7 { SourceRange := [], IPStrategy := () } "allow-lan" rfl


/-- The two results of `New` by cases on what the collaborators return. -/
theorem New_results {H Chk StratCfg : Type} (c : Collab Chk StratCfg) (next : H)
    (config : IPAllowList StratCfg) (name : String) :
    (New c next config name).2 =
      if config.SourceRange = [] then
        (none, some (GoError.new "sourceRange is empty, IPAllowLister not created"))
      else
        match c.NewChecker config.SourceRange with
        | .error err =>
          (none, some (GoError.wrap
            ("cannot parse CIDR allowlist " ++ fmtStrings config.SourceRange ++ ": " ++
              err.Error) err))
        | .ok checker =>
          match c.Get config.IPStrategy with
          | .error err => (none, some err)
          | .ok strategy =>
            (some { strategy := strategy, allowLister := checker, next := next, name := name },
             none) := by
  unfold New
  by_cases h : config.SourceRange = []
  · simp [h]
  · simp only [List.length_eq_zero, h, if_false]
    cases c.NewChecker config.SourceRange with
    | error err => rfl
    | ok checker =>
      cases c.Get config.IPStrategy with
      | error err => rfl
      | ok strategy => rfl

/-- C4: `New` returns a middleware with a nil error if and only if `SourceRange` is
non-empty, `NewChecker` succeeds on it and `IPStrategy.Get` succeeds; otherwise it returns
a nil handler and: the "sourceRange is empty" error when the list is empty, else an
error wrapping the checker's error when `NewChecker` fails, else the strategy's error
unchanged. -/
theorem C4_new_success_iff_and_errors {H Chk StratCfg : Type} (c : Collab Chk StratCfg)
    (next : H) (config : IPAllowList StratCfg) (name : String) :
    ((∃ wl, (New c next config name).2 = (some wl, none)) ↔
      (config.SourceRange ≠ [] ∧ (∃ chk, c.NewChecker config.SourceRange = .ok chk) ∧
        ∃ s, c.Get config.IPStrategy = .ok s)) ∧
    ((New c next config name).2.2 = none ↔
      (config.SourceRange ≠ [] ∧ (∃ chk, c.NewChecker config.SourceRange = .ok chk) ∧
        ∃ s, c.Get config.IPStrategy = .ok s)) ∧
    (config.SourceRange = [] →
      (New c next config name).2 =
        (none, some (GoError.new "sourceRange is empty, IPAllowLister not created"))) ∧
    (∀ e, config.SourceRange ≠ [] → c.NewChecker config.SourceRange = .error e →
      (New c next config name).2 =
        (none, some (GoError.wrap
          ("cannot parse CIDR allowlist " ++ fmtStrings config.SourceRange ++ ": " ++ e.Error)
          e)) ∧
      (GoError.wrap
          ("cannot parse CIDR allowlist " ++ fmtStrings config.SourceRange ++ ": " ++ e.Error)
          e).Unwrap = some e) ∧
    (∀ chk e, config.SourceRange ≠ [] → c.NewChecker config.SourceRange = .ok chk →
      c.Get config.IPStrategy = .error e →
      (New c next config name).2 = (none, some e)) := by
  rw [New_results]
  by_cases h : config.SourceRange = []
  · simp [h]
  · cases hc : c.NewChecker config.SourceRange with
    | error err => simp [h, GoError.Unwrap]
    | ok checker =>
      cases hg : c.Get config.IPStrategy with
      | error err => simp [h]
      | ok strategy => simp [h]

/-- C4 on four configurations: a good one, an empty list, an unparsable range, and a
strategy selection that fails. -/
theorem C4_new_success_iff_and_errors_witness :
    (∃ wl, (New scenarioCollab (7 : Nat) scenarioConfig "allow-lan").2 = (some wl, none)) ∧
    (New scenarioCollab (7 : Nat) { SourceRange := [], IPStrategy := () } "allow-lan").2 =
      (none, some (GoError.new "sourceRange is empty, IPAllowLister not created")) ∧
    (New scenarioCollab (7 : Nat) { SourceRange := ["10.0.0.0/8", "bogus"], IPStrategy := () }
        "allow-lan").2 =
      (none, some (GoError.wrap
        "cannot parse CIDR allowlist [10.0.0.0/8 bogus]: parsing CIDR trusted IPs bogus"
        (GoError.new "parsing CIDR trusted IPs bogus"))) ∧
    (New (specCollab ip.ipv4Grammar (fun (_ : Unit) => .error (GoError.new "bad strategy")))
        (7 : Nat) scenarioConfig "allow-lan").2 =
      (none, some (GoError.new "bad strategy")) :=
  ⟨((C4_new_success_iff_and_errors scenarioCollab (7 : Nat) scenarioConfig "allow-lan").1).2
      ⟨by decide, ⟨_, rfl⟩, ⟨_, rfl⟩⟩,
   rfl, rfl, rfl⟩

/-- C5: the rejection response does not depend on the reason of the rejection: for any
two middleware instances (over any collaborators), response writers and requests whose
derived IP the checker refuses, with whatever errors, `ServeHTTP` makes the same calls
on the response writer, `WriteHeader(403)` then `Write("Forbidden")`, and in neither
run calls next. -/
theorem C5_uniform_rejection {H₁ Chk₁ StratCfg₁ H₂ Chk₂ StratCfg₂ : Type}
    (c₁ : Collab Chk₁ StratCfg₁) (wl₁ : ipAllowLister H₁ Chk₁) (rw₁ : ResponseWriter)
    (req₁ : Request) (err₁ : GoError)
    (c₂ : Collab Chk₂ StratCfg₂) (wl₂ : ipAllowLister H₂ Chk₂) (rw₂ : ResponseWriter)
    (req₂ : Request) (err₂ : GoError)
    (h₁ : c₁.IsAuthorized wl₁.allowLister (wl₁.strategy.GetIP req₁) = some err₁)
    (h₂ : c₂.IsAuthorized wl₂.allowLister (wl₂.strategy.GetIP req₂) = some err₂) :
    response (wl₁.ServeHTTP c₁ rw₁ req₁) = response (wl₂.ServeHTTP c₂ rw₂ req₂) ∧
    response (wl₁.ServeHTTP c₁ rw₁ req₁) =
      [RWCall.WriteHeader 403, RWCall.Write "Forbidden"] ∧
    nextCalls (wl₁.ServeHTTP c₁ rw₁ req₁) = [] ∧
    nextCalls (wl₂.ServeHTTP c₂ rw₂ req₂) = [] := by
  have e₁ : response (wl₁.ServeHTTP c₁ rw₁ req₁) =
      [RWCall.WriteHeader 403, RWCall.Write "Forbidden"] := by
    rw [response, rwCalls_refused c₁ wl₁ rw₁ req₁ err₁ h₁]; rfl
  have e₂ : response (wl₂.ServeHTTP c₂ rw₂ req₂) =
      [RWCall.WriteHeader 403, RWCall.Write "Forbidden"] := by
    rw [response, rwCalls_refused c₂ wl₂ rw₂ req₂ err₂ h₂]; rfl
  exact ⟨e₁.trans e₂.symm, e₁, nextCalls_refused c₁ wl₁ rw₁ req₁ err₁ h₁,
    nextCalls_refused c₂ wl₂ rw₂ req₂ err₂ h₂⟩

/-- C5 at scenarios D and B: an empty candidate IP ("invalid IP") and a peer outside
every range ("IP not in allow-list") get the same response. -/
theorem C5_uniform_rejection_witness :
    scenarioCollab.IsAuthorized scenarioWL.allowLister (scenarioWL.strategy.GetIP reqD) =
      some (GoError.new "invalid IP") ∧
    scenarioCollab.IsAuthorized scenarioWL.allowLister (scenarioWL.strategy.GetIP reqB) =
      some (GoError.new "IP not in allow-list") ∧
    response (scenarioWL.ServeHTTP scenarioCollab rwOk reqD) =
      response (scenarioWL.ServeHTTP scenarioCollab rwBroken reqB) ∧
    response (scenarioWL.ServeHTTP scenarioCollab rwOk reqD) =
      [RWCall.WriteHeader 403, RWCall.Write "Forbidden"] ∧
    nextCalls (scenarioWL.ServeHTTP scenarioCollab rwOk reqD) = [] ∧
    nextCalls (scenarioWL.ServeHTTP scenarioCollab rwBroken reqB) = [] :=
  ⟨by decide, by decide,
   C5_uniform_rejection scenarioCollab scenarioWL rwOk reqD (GoError.new "invalid IP")
     scenarioCollab scenarioWL rwBroken reqB (GoError.new "IP not in allow-list")
     (by decide) (by decide)⟩

/-- C6: when `New` succeeds (nil error), the handler it returns holds the given next
handler, the checker that `NewChecker` built from `SourceRange`, the strategy that
`IPStrategy.Get` returned and the given name; `GetTracingInformation` on it returns that
name with span kind "none"; and a request it authorizes is passed, with its response
writer, to that same next handler. -/
theorem C6_new_holds_its_arguments {H Chk StratCfg : Type} (c : Collab Chk StratCfg)
    (next : H) (config : IPAllowList StratCfg) (name : String)
    (h : (New c next config name).2.2 = none) :
    ∃ wl, (New c next config name).2.1 = some wl ∧
      wl.next = next ∧
      c.NewChecker config.SourceRange = .ok wl.allowLister ∧
      c.Get config.IPStrategy = .ok wl.strategy ∧
      wl.name = name ∧
      wl.GetTracingInformation = (name, "none") ∧
      ∀ rw req, c.IsAuthorized wl.allowLister (wl.strategy.GetIP req) = none →
        nextCalls (wl.ServeHTTP c rw req) = [(next, rw, req)] := by
  rw [New_results] at h
  rw [New_results]
  by_cases hs : config.SourceRange = []
  · simp [hs] at h
  · cases hc : c.NewChecker config.SourceRange with
    | error err => simp [hs, hc] at h
    | ok checker =>
      cases hg : c.Get config.IPStrategy with
      | error err => simp [hs, hc, hg] at h
      | ok strategy =>
        refine ⟨{ strategy := strategy, allowLister := checker, next := next, name := name },
          by simp [hs], rfl, rfl, rfl, rfl, rfl, ?_⟩
        intro rw req ha
        exact nextCalls_accepted c _ rw req ha

/-- C6 at the configuration of scenario A. -/
theorem C6_new_holds_its_arguments_witness :
    (New scenarioCollab (7 : Nat) scenarioConfig "allow-lan").2.2 = none ∧
    ∃ wl, (New scenarioCollab (7 : Nat) scenarioConfig "allow-lan").2.1 = some wl ∧
      wl.next = 7 ∧
      scenarioCollab.NewChecker scenarioConfig.SourceRange = .ok wl.allowLister ∧
      scenarioCollab.Get scenarioConfig.IPStrategy = .ok wl.strategy ∧
      wl.name = "allow-lan" ∧
      wl.GetTracingInformation = ("allow-lan", "none") ∧
      ∀ rw req, scenarioCollab.IsAuthorized wl.allowLister (wl.strategy.GetIP req) = none →
        nextCalls (wl.ServeHTTP scenarioCollab rw req) = [(7, rw, req)] :=
  ⟨by decide, C6_new_holds_its_arguments scenarioCollab 7 scenarioConfig "allow-lan" (by decide)⟩


/-- When every entry parses, `parseRanges` returns exactly the parsed entries. -/
theorem ip.parseRanges_ok (sx : ip.AddrGrammar) (R : List String)
    (hwf : ∀ r ∈ R, ∃ n, ip.parseRange sx r = some n) :
    ∃ ns, ip.parseRanges sx R = .ok ns ∧
      ∀ n, n ∈ ns ↔ ∃ r ∈ R, ip.parseRange sx r = some n := by
  induction R with
  | nil => exact ⟨[], rfl, by simp⟩
  | cons r rs ih =>
    obtain ⟨n₀, hn₀⟩ := hwf r (List.mem_cons_self r rs)
    obtain ⟨ns, hns, hmem⟩ := ih (fun x hx => hwf x (List.mem_cons_of_mem r hx))
    refine ⟨n₀ :: ns, by simp [ip.parseRanges, hn₀, hns], ?_⟩
    intro n
    constructor
    · intro hn
      rcases List.mem_cons.mp hn with h | h
      · exact ⟨r, List.mem_cons_self r rs, h ▸ hn₀⟩
      · obtain ⟨x, hx, hxn⟩ := (hmem n).mp h
        exact ⟨x, List.mem_cons_of_mem r hx, hxn⟩
    · rintro ⟨x, hx, hxn⟩
      rcases List.mem_cons.mp hx with h | h
      · subst h
        rw [hn₀] at hxn
        exact List.mem_cons.mpr (Or.inl (Option.some.inj hxn).symm)
      · exact List.mem_cons_of_mem n₀ ((hmem n).mpr ⟨x, h, hxn⟩)

/-- The checker of the specification authorizes an address exactly when the address
parses and one of its ranges contains it. -/
theorem ip.IsAuthorized_eq_none_iff (sx : ip.AddrGrammar) (ck : ip.Checker) (addr : String) :
    ip.Checker.IsAuthorized sx ck addr = none ↔
      ∃ a, sx.parseIP addr = some a ∧ ∃ n ∈ ck.authorized, n.Contains a = true := by
  unfold ip.Checker.IsAuthorized
  cases hp : sx.parseIP addr with
  | none => simp
  | some a =>
    by_cases hany : ck.authorized.any (fun n => n.Contains a) = true
    · simp only [hany, if_true, true_iff]
      exact ⟨a, rfl, List.any_eq_true.mp hany⟩
    · simp only [hany]
      constructor
      · intro h
        cases h
      · rintro ⟨a', ha', hn⟩
        cases ha'
        exact absurd (List.any_eq_true.mpr hn) hany

/-- C7: over package ip as the specification describes it, for every non-empty list `R`
of well-formed range strings and every strategy configuration that `Get` accepts, `New`
builds a middleware, and for every request that middleware calls next (once, with the
same writer and request) if and only if the IP derived by the strategy parses and lies
in at least one range of `R` under CIDR containment; otherwise it calls next not at all
and writes status 403 with body "Forbidden". -/
theorem C7_forward_iff_in_some_range {H StratCfg : Type} (sx : ip.AddrGrammar)
    (get : StratCfg → Except GoError Strategy) (next : H) (R : List String)
    (cfg : StratCfg) (name : String) (strat : Strategy)
    (hne : R ≠ [])
    (hwf : ∀ r ∈ R, ∃ n, ip.parseRange sx r = some n)
    (hget : get cfg = .ok strat) :
    ∃ wl, (New (specCollab sx get) next { SourceRange := R, IPStrategy := cfg } name).2 =
        (some wl, none) ∧
      wl.strategy = strat ∧
      ∀ rw req,
        (nextCalls (wl.ServeHTTP (specCollab sx get) rw req) = [(next, rw, req)] ↔
          ∃ r ∈ R, ∃ n a, ip.parseRange sx r = some n ∧
            sx.parseIP (strat.GetIP req) = some a ∧ n.Contains a = true) ∧
        ((¬ ∃ r ∈ R, ∃ n a, ip.parseRange sx r = some n ∧
            sx.parseIP (strat.GetIP req) = some a ∧ n.Contains a = true) →
          nextCalls (wl.ServeHTTP (specCollab sx get) rw req) = [] ∧
          rwCalls (wl.ServeHTTP (specCollab sx get) rw req) =
            [(rw, RWCall.WriteHeader 403), (rw, RWCall.Write "Forbidden")]) := by
  obtain ⟨ns, hns, hmem⟩ := ip.parseRanges_ok sx R hwf
  have hlen : ¬ R.length = 0 := fun h => hne (List.length_eq_zero.mp h)
  have hck : (specCollab sx get).NewChecker R = .ok { authorized := ns } := by
    simp [specCollab, ip.NewChecker, hlen, hns]
  refine ⟨{ strategy := strat, allowLister := { authorized := ns }, next := next, name := name },
    ?_, rfl, ?_⟩
  · rw [New_results]
    simp only [hne, if_false, hck]
    simp [specCollab, hget]
  · intro rw req
    have key : (specCollab sx get).IsAuthorized { authorized := ns } (strat.GetIP req) = none ↔
        ∃ r ∈ R, ∃ n a, ip.parseRange sx r = some n ∧
          sx.parseIP (strat.GetIP req) = some a ∧ n.Contains a = true := by
      show ip.Checker.IsAuthorized sx _ _ = none ↔ _
      rw [ip.IsAuthorized_eq_none_iff]
      constructor
      · rintro ⟨a, ha, n, hn, hc⟩
        obtain ⟨r, hr, hrn⟩ := (hmem n).mp hn
        exact ⟨r, hr, n, a, hrn, ha, hc⟩
      · rintro ⟨r, hr, n, a, hrn, ha, hc⟩
        exact ⟨a, ha, n, (hmem n).mpr ⟨r, hr, hrn⟩, hc⟩
    cases hauth : (specCollab sx get).IsAuthorized { authorized := ns } (strat.GetIP req) with
    | none =>
      have hin := key.mp hauth
      refine ⟨⟨fun _ => hin, fun _ => ?_⟩, fun hnot => absurd hin hnot⟩
      exact (nextCalls_accepted (specCollab sx get)
        ({ strategy := strat, allowLister := { authorized := ns }, next := next, name := name } :
        ipAllowLister H ip.Checker) rw req hauth)
    | some err =>
      have hnot : ¬ ∃ r ∈ R, ∃ n a, ip.parseRange sx r = some n ∧
          sx.parseIP (strat.GetIP req) = some a ∧ n.Contains a = true := by
        intro hin
        rw [key.mpr hin] at hauth
        cases hauth
      have hnext := nextCalls_refused (specCollab sx get)
        ({ strategy := strat, allowLister := { authorized := ns }, next := next, name := name } :
        ipAllowLister H ip.Checker) rw req err hauth
      refine ⟨⟨fun h => ?_, fun hin => absurd hin hnot⟩, fun _ =>
        ⟨hnext, rwCalls_refused (specCollab sx get)
        ({ strategy := strat, allowLister := { authorized := ns }, next := next, name := name } :
        ipAllowLister H ip.Checker) rw req err hauth⟩⟩
      rw [hnext] at h
      cases h


/-- C7 at scenarios A and B: with `R = ["192.168.0.0/16"]` and the RemotePeer strategy,
peer `192.168.1.5` is forwarded and peer `10.0.0.1` is rejected with 403. -/
theorem C7_forward_iff_in_some_range_witness :
    (["192.168.0.0/16"] : List String) ≠ [] ∧
    (∀ r ∈ ["192.168.0.0/16"], ∃ n, ip.parseRange ip.ipv4Grammar r = some n) ∧
    getUnset () = .ok ip.RemoteAddrStrategy ∧
    ∃ wl, (New scenarioCollab (7 : Nat) scenarioConfig "allow-lan").2 = (some wl, none) ∧
      nextCalls (wl.ServeHTTP scenarioCollab rwOk reqA) = [(7, rwOk, reqA)] ∧
      nextCalls (wl.ServeHTTP scenarioCollab rwOk reqB) = [] ∧
      rwCalls (wl.ServeHTTP scenarioCollab rwOk reqB) =
        [(rwOk, RWCall.WriteHeader 403), (rwOk, RWCall.Write "Forbidden")] := by
  have hwf : ∀ r ∈ ["192.168.0.0/16"], ∃ n, ip.parseRange ip.ipv4Grammar r = some n := by
    intro r hr
    rw [List.mem_singleton] at hr
    subst hr
    exact ⟨{ width := 32, base := 3232235520, ones := 16 }, by decide⟩
  obtain ⟨wl, hnew, _, hall⟩ :=
    C7_forward_iff_in_some_range ip.ipv4Grammar getUnset (7 : Nat) ["192.168.0.0/16"] ()
      "allow-lan" ip.RemoteAddrStrategy (by decide) hwf rfl
  refine ⟨by decide, hwf, rfl, wl, hnew, ?_, (hall rwOk reqB).2 ?_⟩
  · exact (hall rwOk reqA).1.mpr
      ⟨"192.168.0.0/16", List.mem_singleton.mpr rfl,
        { width := 32, base := 3232235520, ones := 16 }, { width := 32, val := 3232235781 },
        by decide, by decide, by decide⟩
  · rintro ⟨r, hr, n, a, hrn, ha, hc⟩
    rw [List.mem_singleton] at hr
    subst hr
    have h₁ : ip.parseRange ip.ipv4Grammar "192.168.0.0/16" =
        some { width := 32, base := 3232235520, ones := 16 } := by decide
    have h₂ : ip.ipv4Grammar.parseIP (ip.RemoteAddrStrategy.GetIP reqB) =
        some { width := 32, val := 167772161 } := by decide
    rw [h₁] at hrn
    rw [h₂] at ha
    cases hrn
    cases ha
    revert hc
    decide

/-- C8, as stated, fails on the allow path: at scenario A the strategy is asked for the
IP twice (once for the check, once for the accept log line), not once. -/
theorem C8_getIP_once_counterexample :
    scenarioCollab.IsAuthorized scenarioWL.allowLister (scenarioWL.strategy.GetIP reqA) = none ∧
    getIPCalls (scenarioWL.ServeHTTP scenarioCollab rwOk reqA) = [reqA, reqA] ∧
    (getIPCalls (scenarioWL.ServeHTTP scenarioCollab rwOk reqA)).length ≠ 1 := by
  decide

/-- C8 amended: for every request `ServeHTTP` first derives the IP, then asks the
checker exactly once on that IP (no retry), then either rejects or forwards and ends.
On the reject path `GetIP` is called exactly once and next is not called; on the allow
path `GetIP` is called exactly twice, the second time for the accept log line before
the single call of next, which is the last call. -/
theorem C8_path_and_getIP_calls {H Chk StratCfg : Type} (c : Collab Chk StratCfg)
    (wl : ipAllowLister H Chk) (rw : ResponseWriter) (req : Request) :
    (∃ rest, wl.ServeHTTP c rw req =
      Event.GetIP req :: Event.IsAuthorized (wl.strategy.GetIP req) :: rest) ∧
    isAuthorizedCalls (wl.ServeHTTP c rw req) = [wl.strategy.GetIP req] ∧
    (∀ err, c.IsAuthorized wl.allowLister (wl.strategy.GetIP req) = some err →
      getIPCalls (wl.ServeHTTP c rw req) = [req] ∧
      nextCalls (wl.ServeHTTP c rw req) = [] ∧
      rwCalls (wl.ServeHTTP c rw req) =
        [(rw, RWCall.WriteHeader 403), (rw, RWCall.Write "Forbidden")]) ∧
    (c.IsAuthorized wl.allowLister (wl.strategy.GetIP req) = none →
      getIPCalls (wl.ServeHTTP c rw req) = [req, req] ∧
      nextCalls (wl.ServeHTTP c rw req) = [(wl.next, rw, req)] ∧
      rwCalls (wl.ServeHTTP c rw req) = [] ∧
      ∃ before, wl.ServeHTTP c rw req = before ++ [Event.next wl.next rw req]) := by
  cases hauth : c.IsAuthorized wl.allowLister (wl.strategy.GetIP req) with
  | none =>
    rw [ServeHTTP_accepted c wl rw req hauth]
    exact ⟨⟨_, rfl⟩, rfl, fun err h => (by cases h), fun _ => ⟨rfl, rfl, rfl,
      ⟨[Event.GetIP req, Event.IsAuthorized (wl.strategy.GetIP req), Event.GetIP req,
        Event.Debug (GetLoggerCtx wl.name typeName)
          (LogMsg.accept (wl.strategy.GetIP req) req)], rfl⟩⟩⟩
  | some err =>
    have hrw := rwCalls_refused c wl rw req err hauth
    have hnext := nextCalls_refused c wl rw req err hauth
    rw [ServeHTTP_refused c wl rw req err hauth, reject_eq] at hrw hnext ⊢
    refine ⟨⟨_, rfl⟩, ?_, fun err' _ => ⟨?_, hnext, hrw⟩, fun h => (by cases h)⟩
    · cases rw.Write "Forbidden" <;> rfl
    · cases rw.Write "Forbidden" <;> rfl

/-- C8 amended, at scenarios B (rejected, one `GetIP`) and A (forwarded, two). -/
theorem C8_path_and_getIP_calls_witness :
    getIPCalls (scenarioWL.ServeHTTP scenarioCollab rwOk reqB) = [reqB] ∧
    getIPCalls (scenarioWL.ServeHTTP scenarioCollab rwOk reqA) = [reqA, reqA] ∧
    nextCalls (scenarioWL.ServeHTTP scenarioCollab rwOk reqA) = [(7, rwOk, reqA)] :=
  ⟨((C8_path_and_getIP_calls scenarioCollab scenarioWL rwOk reqB).2.2.1
      (GoError.new "IP not in allow-list") (by decide)).1,
   ((C8_path_and_getIP_calls scenarioCollab scenarioWL rwOk reqA).2.2.2 (by decide)).1,
   ((C8_path_and_getIP_calls scenarioCollab scenarioWL rwOk reqA).2.2.2 (by decide)).2.1⟩

/-- C9: on a rejected request whose body write fails with an error, `ServeHTTP` has
called `WriteHeader(403)` before `Write`, calls no next handler, and hands the write
error to the error log only: the list of its calls is complete and ends there. -/
theorem C9_write_error_only_logged {H Chk StratCfg : Type} (c : Collab Chk StratCfg)
    (wl : ipAllowLister H Chk) (rw : ResponseWriter) (req : Request) (err werr : GoError)
    (h : c.IsAuthorized wl.allowLister (wl.strategy.GetIP req) = some err)
    (hw : rw.Write (StatusText StatusForbidden) = some werr) :
    wl.ServeHTTP c rw req =
      [Event.GetIP req, Event.IsAuthorized (wl.strategy.GetIP req),
       Event.Debug (GetLoggerCtx wl.name typeName) (LogMsg.rejecting req err),
       Event.SetErrorWithEvent req (LogMsg.rejecting req err),
       Event.rw rw (RWCall.WriteHeader 403),
       Event.rw rw (RWCall.Write "Forbidden"),
       Event.Error (GetLoggerCtx wl.name typeName) werr] ∧
    nextCalls (wl.ServeHTTP c rw req) = [] ∧
    rwCalls (wl.ServeHTTP c rw req) =
      [(rw, RWCall.WriteHeader 403), (rw, RWCall.Write "Forbidden")] ∧
    errorLogs (wl.ServeHTTP c rw req) = [werr] := by
  have hw' : rw.Write "Forbidden" = some werr := hw
  refine ⟨?_, nextCalls_refused c wl rw req err h, rwCalls_refused c wl rw req err h, ?_⟩
  · rw [ServeHTTP_refused c wl rw req err h, reject_eq, hw']
    rfl
  · rw [ServeHTTP_refused c wl rw req err h, reject_eq, hw']
    rfl

/-- C9 at scenario B with a response writer whose `Write` fails. -/
theorem C9_write_error_only_logged_witness :
    scenarioCollab.IsAuthorized scenarioWL.allowLister (scenarioWL.strategy.GetIP reqB) =
      some (GoError.new "IP not in allow-list") ∧
    rwBroken.Write (StatusText StatusForbidden) = some (GoError.new "broken pipe") ∧
    nextCalls (scenarioWL.ServeHTTP scenarioCollab rwBroken reqB) = [] ∧
    rwCalls (scenarioWL.ServeHTTP scenarioCollab rwBroken reqB) =
      [(rwBroken, RWCall.WriteHeader 403), (rwBroken, RWCall.Write "Forbidden")] ∧
    errorLogs (scenarioWL.ServeHTTP scenarioCollab rwBroken reqB) =
      [GoError.new "broken pipe"] :=
  ⟨by decide, by decide,
   (C9_write_error_only_logged scenarioCollab scenarioWL rwBroken reqB
     (GoError.new "IP not in allow-list") (GoError.new "broken pipe")
     (by decide) (by decide)).2⟩

/-- C10: on the reject path `ServeHTTP` makes exactly one tracing error annotation
(`SetErrorWithEvent`, on the request) and exactly one response write sequence, one
`WriteHeader` and one `Write`, whatever `Write` returns; on the allow path it makes no
tracing error annotation and no call on the response writer. -/
theorem C10_side_effects_once_per_path {H Chk StratCfg : Type} (c : Collab Chk StratCfg)
    (wl : ipAllowLister H Chk) (rw : ResponseWriter) (req : Request) :
    (∀ err, c.IsAuthorized wl.allowLister (wl.strategy.GetIP req) = some err →
      setErrorCalls (wl.ServeHTTP c rw req) = [(req, LogMsg.rejecting req err)] ∧
      (setErrorCalls (wl.ServeHTTP c rw req)).length = 1 ∧
      response (wl.ServeHTTP c rw req) = [RWCall.WriteHeader 403, RWCall.Write "Forbidden"] ∧
      (response (wl.ServeHTTP c rw req)).length = 2 ∧
      (response (wl.ServeHTTP c rw req)).count (RWCall.WriteHeader 403) = 1 ∧
      (response (wl.ServeHTTP c rw req)).count (RWCall.Write "Forbidden") = 1) ∧
    (c.IsAuthorized wl.allowLister (wl.strategy.GetIP req) = none →
      setErrorCalls (wl.ServeHTTP c rw req) = [] ∧
      rwCalls (wl.ServeHTTP c rw req) = [] ∧
      response (wl.ServeHTTP c rw req) = []) := by
  constructor
  · intro err h
    have hresp : response (wl.ServeHTTP c rw req) =
        [RWCall.WriteHeader 403, RWCall.Write "Forbidden"] := by
      rw [response, rwCalls_refused c wl rw req err h]; rfl
    have hset : setErrorCalls (wl.ServeHTTP c rw req) = [(req, LogMsg.rejecting req err)] := by
      rw [ServeHTTP_refused c wl rw req err h, reject_eq]
      cases rw.Write "Forbidden" <;> rfl
    rw [hresp, hset]
    exact ⟨rfl, rfl, rfl, rfl, by decide, by decide⟩
  · intro h
    rw [ServeHTTP_accepted c wl rw req h]
    exact ⟨rfl, rfl, rfl⟩

/-- C10 at scenarios B (rejected) and A (forwarded). -/
theorem C10_side_effects_once_per_path_witness :
    (setErrorCalls (scenarioWL.ServeHTTP scenarioCollab rwOk reqB)).length = 1 ∧
    response (scenarioWL.ServeHTTP scenarioCollab rwOk reqB) =
      [RWCall.WriteHeader 403, RWCall.Write "Forbidden"] ∧
    setErrorCalls (scenarioWL.ServeHTTP scenarioCollab rwOk reqA) = [] ∧
    rwCalls (scenarioWL.ServeHTTP scenarioCollab rwOk reqA) = [] :=
  ⟨((C10_side_effects_once_per_path scenarioCollab scenarioWL rwOk reqB).1
      (GoError.new "IP not in allow-list") (by decide)).2.1,
   ((C10_side_effects_once_per_path scenarioCollab scenarioWL rwOk reqB).1
      (GoError.new "IP not in allow-list") (by decide)).2.2.1,
   ((C10_side_effects_once_per_path scenarioCollab scenarioWL rwOk reqA).2 (by decide)).1,
   ((C10_side_effects_once_per_path scenarioCollab scenarioWL rwOk reqA).2 (by decide)).2.1⟩


end ipallowlist
